import Mathlib

/-!
Shallow embedding of the CH34x JTAG adapter driver (src/src/main.rs) and
verification of its specification claims.  USB I/O is modelled as an explicit
event trace: a bulk OUT transfer records the endpoint and the bytes written,
a bulk IN transfer records the endpoint and the number of bytes requested.
Device replies are passed in as explicit parameters, and a Rust panic
(`unwrap`/`expect` firing) is modelled as `none` in an `Option` result.
Machine integers (`u8`, `u32`, lengths) are modelled as `Nat`; every value
computed by the embedded code stays far below the relevant modulus, so no
wrap-around arithmetic is needed.
-/

namespace Ch34xPlay

/-- Rust `enum PACK` (main.rs lines 13-16). -/
inductive PACK where
  | STANDARD_PACK
  | LARGER_PACK
deriving DecidableEq

/-- The only `DebugProbeError` variant the driver constructs (probe-rs error type). -/
inductive DebugProbeError where
  | UnsupportedSpeed (khz : Nat)
deriving DecidableEq

/-- A USB bulk transfer event: an OUT transfer carries the bytes written,
an IN transfer carries the number of bytes requested. -/
inductive USBEvent where
  | bulkOut (endpoint : Nat) (data : List Nat)
  | bulkIn (endpoint : Nat) (len : Nat)
deriving DecidableEq

/-- Rust `struct CH34x` (main.rs lines 18-24), without the opaque USB interface handle. -/
structure CH34x where
  name : String
  epout : Nat
  epin : Nat
  pack : Option PACK

/-- Rust `enum Command` (main.rs lines 25-33). -/
inductive Command where
  | Clock (tms tdi trst srst : Bool)
  | Reset (x : Bool)

/-- Rust `u8::from(bool)`. -/
def boolToU8 : Bool → Nat
  | true => 1
  | false => 0

/-- The `Command::Clock` arm of `impl From<Command> for u8` (main.rs lines 44-55):
`(u8::from(tms) << 1) | (u8::from(tdi) << 4) | (u8::from(trst) << 5) | (u8::from(srst) << 6) | 0`. -/
def Command.clockBits (tms tdi trst srst : Bool) : Nat :=
  (boolToU8 tms <<< 1) ||| (boolToU8 tdi <<< 4) ||| (boolToU8 trst <<< 5) |||
    (boolToU8 srst <<< 6) ||| 0

/-- Rust `impl From<Command> for u8` (main.rs lines 35-58).  The `Reset(x)` arm
delegates to the conversion of `Clock{tms:true, tdi:true, trst:x, srst:false}`. -/
def Command.toU8 : Command → Nat
  | .Reset x => Command.clockBits true true x false
  | .Clock tms tdi trst srst => Command.clockBits tms tdi trst srst

/-- Rust `struct ClockBuilder` (main.rs lines 71-73). -/
structure ClockBuilder where
  buf : List Nat
deriving DecidableEq

/-- Rust `ClockBuilder::new` (main.rs lines 76-78). -/
def ClockBuilder.new : ClockBuilder :=
  { buf := [] }

/-- Rust `ClockBuilder::add` (main.rs lines 79-85): pushes `left = u8::from(command)`
then `right = left | 0x01`. -/
def ClockBuilder.add (self : ClockBuilder) (command : Command) : ClockBuilder :=
  let left := Command.toU8 command
  let right := left ||| 0x01
  { buf := self.buf ++ [left, right] }

/-- Folding `ClockBuilder.add` over a sequence of commands, in order. -/
def ClockBuilder.addAll (self : ClockBuilder) (commands : List Command) : ClockBuilder :=
  commands.foldl ClockBuilder.add self

/-- The two bytes `ClockBuilder.add` appends for one command. -/
def encodePair (c : Command) : List Nat :=
  [Command.toU8 c, Command.toU8 c ||| 0x01]

/-- The bytes a fresh builder accumulates for a command sequence, chunk by chunk. -/
def encodeList : List Command → List Nat
  | [] => []
  | c :: cs => encodePair c ++ encodeList cs

/-- The state produced by the success path of `CH34x::new_from_selector`
(main.rs lines 129-135): fixed name, endpoints OUT = 0x06, IN = 0x86, and no
pack mode resolved yet. -/
def CH34x.new_from_selector_ok : CH34x :=
  { name := "ch347", epout := 0x06, epin := 0x86, pack := none }

/-- Rust `CH34x::speed_khz_index` (main.rs lines 179-216): the two fixed speed
tables keyed by the resolved pack mode; any other speed, or an unresolved pack
mode, yields `UnsupportedSpeed(speed)`. -/
def CH34x.speed_khz_index (self : CH34x) (speed : Nat) : Except DebugProbeError Nat :=
  match self.pack with
  | some PACK.STANDARD_PACK =>
    if speed = 1875 then .ok 0
    else if speed = 3750 then .ok 1
    else if speed = 7500 then .ok 2
    else if speed = 15000 then .ok 3
    else if speed = 30000 then .ok 4
    else if speed = 60000 then .ok 5
    else .error (.UnsupportedSpeed speed)
  | some PACK.LARGER_PACK =>
    if speed = 468 then .ok 0
    else if speed = 937 then .ok 1
    else if speed = 1875 then .ok 2
    else if speed = 3750 then .ok 3
    else if speed = 7500 then .ok 4
    else if speed = 15000 then .ok 5
    else if speed = 30000 then .ok 6
    else if speed = 60000 then .ok 7
    else .error (.UnsupportedSpeed speed)
  | none => .error (.UnsupportedSpeed speed)

/-- Outcome of one `set_speed` call: the bulk transfers it performed and its
result; `result = none` models the `unwrap` panic on an empty device reply. -/
structure SetSpeedRun where
  events : List USBEvent
  result : Option (Except DebugProbeError Nat)

/-- Rust `CH34x::set_speed` (main.rs lines 162-177).  `reply` is the byte
vector the device returns for the 4-byte bulk IN request.  The index lookup
happens before any transfer; on a hit the 9-byte command is written, the
4-byte reply is read, and the reply's last byte decides acceptance. -/
def CH34x.set_speed (self : CH34x) (speed_khz : Nat) (reply : List Nat) : SetSpeedRun :=
  match self.speed_khz_index speed_khz with
  | .error e => { events := [], result := some (.error e) }
  | .ok index =>
    let buf := [0xD0, 0x06, 0x00, 0x00, index, 0x00, 0x00, 0x00, 0x00]
    let events := [USBEvent.bulkOut self.epout buf, USBEvent.bulkIn self.epin 4]
    match reply.getLast? with
    | none => { events := events, result := none }
    | some v =>
      if v ≠ 0x00 then { events := events, result := some (.error (.UnsupportedSpeed speed_khz)) }
      else { events := events, result := some (.ok speed_khz) }

/-- Outcome of `ch347_jtag_init`: the state after the handshake, the bulk
transfers performed, and whether an `expect`/`unwrap` fired fatally. -/
structure InitRun where
  state : CH34x
  events : List USBEvent
  fatal : Bool

/-- True exactly when a `set_speed` result makes `ch347_jtag_init` die:
either `set_speed` returned an error (the `expect` fires) or it panicked. -/
def fatalOf : Option (Except DebugProbeError Nat) → Bool
  | some (.ok _) => false
  | some (.error _) => true
  | none => true

/-- Rust `CH34x::ch347_jtag_init` (main.rs lines 138-160).  `initReply` is the
device's reply to the 4-byte bulk IN request of the pack-mode handshake,
`speedReply` the reply consumed by the trailing `set_speed(60000)` call.
The handshake command is written on the literal endpoint 6, as in the source. -/
def CH34x.ch347_jtag_init (self : CH34x) (initReply speedReply : List Nat) : InitRun :=
  let initEvents := [USBEvent.bulkOut 6 [0xD0, 6, 0, 0, 9, 0x00, 0x00, 0x00, 0x00],
                     USBEvent.bulkIn self.epin 4]
  let self1 :=
    match initReply.getLast? with
    | some val =>
      { self with pack := if val = 0x00 then some PACK.STANDARD_PACK else some PACK.LARGER_PACK }
    | none => self
  let run := self1.set_speed 60000 speedReply
  { state := self1, events := initEvents ++ run.events, fatal := fatalOf run.result }

/-- Rust `CH34x::send` (main.rs lines 218-234): frames the payload as
`0xD2, len % 255, 0x00` followed by the payload, writes it, then reads into a
fixed 64-byte buffer whose content is only logged.  The result is the trace of
the two transfers; nothing of the reply influences the caller. -/
def CH34x.send (self : CH34x) (buf : List Nat) : List USBEvent :=
  let out := [0xd2]
  let low := buf.length % 255
  let out := out ++ [low]
  let out := out ++ [0]
  let out := out ++ buf
  [USBEvent.bulkOut self.epout out, USBEvent.bulkIn self.epin 64]

/-- Device-reported completion status of a bulk transfer. -/
inductive TransferStatus where
  | ok
  | fail
deriving DecidableEq

/-- Completion of a bulk OUT transfer: status and the byte count the device accepted. -/
structure OutCompletion where
  status : TransferStatus
  actual_length : Nat
deriving DecidableEq

/-- Completion of a bulk IN transfer: status and the bytes received. -/
structure InCompletion where
  status : TransferStatus
  data : List Nat
deriving DecidableEq

/-- Which side of the `fut.or(timer)` race settles first: the transfer
completion, or the deadline timer. -/
inductive RaceOutcome (α : Type) where
  | completed (comp : α)
  | deadline

/-- The `io::Error` values `write_bulk`/`read_bulk` produce: the
`ErrorKind::TimedOut` error from the deadline arm, or `io::Error::other`
wrapping a device-reported transfer failure. -/
inductive IoErr where
  | timedOut
  | other
deriving DecidableEq

/-- Rust `InterfaceExt::write_bulk` (main.rs lines 243-256).  The race winner
is an explicit parameter: `deadline` means the timer fired before the bulk OUT
transfer completed. -/
def write_bulk (endpoint : Nat) (buf : List Nat) (timeout : Nat)
    (race : RaceOutcome OutCompletion) : Except IoErr Nat :=
  match race with
  | .deadline => .error .timedOut
  | .completed comp =>
    match comp.status with
    | .fail => .error .other
    | .ok => .ok comp.actual_length

/-- Rust `InterfaceExt::read_bulk` (main.rs lines 258-272).  On a completed
transfer with success status, `comp.data.len()` bytes are copied into the
front of `buf`; the result carries the count and the updated buffer.  `none`
models the `copy_from_slice` panic when more bytes arrive than `buf` holds. -/
def read_bulk (endpoint : Nat) (buf : List Nat) (timeout : Nat)
    (race : RaceOutcome InCompletion) : Option (Except IoErr (Nat × List Nat)) :=
  match race with
  | .deadline => some (.error .timedOut)
  | .completed comp =>
    match comp.status with
    | .fail => some (.error .other)
    | .ok =>
      let n := comp.data.length
      if n ≤ buf.length then some (.ok (n, comp.data ++ buf.drop n))
      else none

/-- A state as produced by `new_from_selector` whose handshake resolved Standard pack. -/
def stdState : CH34x :=
  { name := "ch347", epout := 0x06, epin := 0x86, pack := some PACK.STANDARD_PACK }

/-- A state as produced by `new_from_selector` whose handshake resolved Larger pack. -/
def largerState : CH34x :=
  { name := "ch347", epout := 0x06, epin := 0x86, pack := some PACK.LARGER_PACK }

/-- A state as produced by `new_from_selector` with the pack mode still unresolved. -/
def nonePackState : CH34x :=
  { name := "ch347", epout := 0x06, epin := 0x86, pack := none }

lemma clockBits_lt (tms tdi trst srst : Bool) :
    Command.clockBits tms tdi trst srst < 128 := by
  cases tms <;> cases tdi <;> cases trst <;> cases srst <;> decide

/-- C5: the encoding of `Clock{tms,tdi,trst,srst}` sets bit 1 to `tms`, bit 4 to
`tdi`, bit 5 to `trst`, bit 6 to `srst`, and every other bit to 0; in
particular `Clock{tms:true, tdi:false, trst:false, srst:false}` encodes to 0x02. -/
theorem clock_encoding_bits (tms tdi trst srst : Bool) :
    (Command.toU8 (.Clock tms tdi trst srst)).testBit 1 = tms ∧
    (Command.toU8 (.Clock tms tdi trst srst)).testBit 4 = tdi ∧
    (Command.toU8 (.Clock tms tdi trst srst)).testBit 5 = trst ∧
    (Command.toU8 (.Clock tms tdi trst srst)).testBit 6 = srst ∧
    (∀ k, k ≠ 1 → k ≠ 4 → k ≠ 5 → k ≠ 6 →
      (Command.toU8 (.Clock tms tdi trst srst)).testBit k = false) ∧
    Command.toU8 (.Clock true false false false) = 0x02 := by
  refine ⟨?_, ?_, ?_, ?_, ?_, rfl⟩
  · cases tms <;> cases tdi <;> cases trst <;> cases srst <;> decide
  · cases tms <;> cases tdi <;> cases trst <;> cases srst <;> decide
  · cases tms <;> cases tdi <;> cases trst <;> cases srst <;> decide
  · cases tms <;> cases tdi <;> cases trst <;> cases srst <;> decide
  · intro k h1 h4 h5 h6
    by_cases hk : k < 7
    · interval_cases k
      · cases tms <;> cases tdi <;> cases trst <;> cases srst <;> decide
      · exact absurd rfl h1
      · cases tms <;> cases tdi <;> cases trst <;> cases srst <;> decide
      · cases tms <;> cases tdi <;> cases trst <;> cases srst <;> decide
      · exact absurd rfl h4
      · exact absurd rfl h5
      · exact absurd rfl h6
    · have hlt : Command.toU8 (.Clock tms tdi trst srst) < 2 ^ k := by
        have hb := clockBits_lt tms tdi trst srst
        have h7 : (128 : Nat) ≤ 2 ^ k := by
          calc (128 : Nat) = 2 ^ 7 := by norm_num
          _ ≤ 2 ^ k := Nat.pow_le_pow_right (by norm_num) (by omega)
        exact lt_of_lt_of_le hb h7
      exact Nat.testBit_lt_two_pow hlt

/-- Witness for C5 at `Clock{tms:true, tdi:false, trst:false, srst:false}` and bit 3. -/
theorem clock_encoding_bits_witness :
    (Command.toU8 (.Clock true false false false)).testBit 1 = true ∧
    (Command.toU8 (.Clock true false false false)).testBit 3 = false ∧
    Command.toU8 (.Clock true false false false) = 0x02 := by
  have h := clock_encoding_bits true false false false
  exact ⟨h.1, h.2.2.2.2.1 3 (by decide) (by decide) (by decide) (by decide), h.2.2.2.2.2⟩

/-- C6: `Reset(x)` encodes exactly as `Clock{tms:true, tdi:true, trst:x, srst:false}`;
it has no distinct byte encoding of its own. -/
theorem reset_encoding_eq_clock (x : Bool) :
    Command.toU8 (.Reset x) = Command.toU8 (.Clock true true x false) := rfl

lemma addAll_buf (cs : List Command) (b : ClockBuilder) :
    (b.addAll cs).buf = b.buf ++ encodeList cs := by
  induction cs generalizing b with
  | nil => simp [ClockBuilder.addAll, encodeList]
  | cons c cs ih =>
    have h1 : b.addAll (c :: cs) = (b.add c).addAll cs := rfl
    rw [h1, ih]
    simp [ClockBuilder.add, encodeList, encodePair]

lemma encodeList_length (cs : List Command) : (encodeList cs).length = 2 * cs.length := by
  induction cs with
  | nil => rfl
  | cons c cs ih =>
    simp [encodeList, encodePair, ih]
    omega

lemma encodeList_getPair (cs : List Command) : ∀ i (h : i < cs.length),
    (encodeList cs)[2 * i]? = some (Command.toU8 cs[i]) ∧
    (encodeList cs)[2 * i + 1]? = some (Command.toU8 cs[i] ||| 0x01) := by
  induction cs with
  | nil => intro i h; exact absurd h (by simp)
  | cons c cs ih =>
    intro i h
    cases i with
    | zero => simp [encodeList, encodePair]
    | succ j =>
      have hj : j < cs.length := by simpa using Nat.lt_of_succ_lt_succ h
      have h2 : 2 * (j + 1) = 2 * j + 1 + 1 := by ring
      have hcons : encodeList (c :: cs) =
          Command.toU8 c :: (Command.toU8 c ||| 0x01) :: encodeList cs := rfl
      rw [hcons, h2]
      constructor
      · rw [List.getElem?_cons_succ, List.getElem?_cons_succ]
        simpa using (ih j hj).1
      · rw [List.getElem?_cons_succ, List.getElem?_cons_succ]
        simpa using (ih j hj).2

/-- C7: appending N commands to a fresh builder yields exactly 2N bytes, in
append order, with the pair at positions (2i, 2i+1) being the encoding of the
i-th command and that byte with bit 0 set. -/
theorem clock_builder_pairs (cs : List Command) :
    (ClockBuilder.new.addAll cs).buf.length = 2 * cs.length ∧
    ∀ i (h : i < cs.length),
      (ClockBuilder.new.addAll cs).buf[2 * i]? = some (Command.toU8 cs[i]) ∧
      (ClockBuilder.new.addAll cs).buf[2 * i + 1]? = some (Command.toU8 cs[i] ||| 0x01) := by
  have hb : (ClockBuilder.new.addAll cs).buf = encodeList cs := by
    rw [addAll_buf]
    rfl
  rw [hb]
  exact ⟨encodeList_length cs, encodeList_getPair cs⟩

/-- Witness for C7 on the two-command sequence `[Clock{tms}, Reset(true)]`, at pair 1. -/
theorem clock_builder_pairs_witness :
    (ClockBuilder.new.addAll [Command.Clock true false false false, Command.Reset true]).buf.length =
      2 * 2 ∧
    (ClockBuilder.new.addAll [Command.Clock true false false false, Command.Reset true]).buf[2 * 1]? =
      some (Command.toU8 (Command.Reset true)) ∧
    (ClockBuilder.new.addAll
        [Command.Clock true false false false, Command.Reset true]).buf[2 * 1 + 1]? =
      some (Command.toU8 (Command.Reset true) ||| 0x01) := by
  have h := clock_builder_pairs [Command.Clock true false false false, Command.Reset true]
  have h2 := h.2 1 (by decide)
  exact ⟨h.1, h2.1, h2.2⟩

/-- C1: `speed_khz_index` realises exactly the two spec tables — the six
Standard entries, the eight Larger entries (1875 mapping to 2 there, not 0),
and `UnsupportedSpeed` on every kHz value outside the active table. -/
theorem speed_khz_index_tables (st : CH34x) (khz : Nat) :
    (st.pack = some PACK.STANDARD_PACK →
      (st.speed_khz_index 1875 = .ok 0 ∧ st.speed_khz_index 3750 = .ok 1 ∧
       st.speed_khz_index 7500 = .ok 2 ∧ st.speed_khz_index 15000 = .ok 3 ∧
       st.speed_khz_index 30000 = .ok 4 ∧ st.speed_khz_index 60000 = .ok 5) ∧
      (khz ≠ 1875 → khz ≠ 3750 → khz ≠ 7500 → khz ≠ 15000 → khz ≠ 30000 → khz ≠ 60000 →
        st.speed_khz_index khz = .error (.UnsupportedSpeed khz))) ∧
    (st.pack = some PACK.LARGER_PACK →
      (st.speed_khz_index 468 = .ok 0 ∧ st.speed_khz_index 937 = .ok 1 ∧
       st.speed_khz_index 1875 = .ok 2 ∧ st.speed_khz_index 3750 = .ok 3 ∧
       st.speed_khz_index 7500 = .ok 4 ∧ st.speed_khz_index 15000 = .ok 5 ∧
       st.speed_khz_index 30000 = .ok 6 ∧ st.speed_khz_index 60000 = .ok 7) ∧
      (khz ≠ 468 → khz ≠ 937 → khz ≠ 1875 → khz ≠ 3750 → khz ≠ 7500 → khz ≠ 15000 →
       khz ≠ 30000 → khz ≠ 60000 →
        st.speed_khz_index khz = .error (.UnsupportedSpeed khz))) := by
  constructor
  · intro hs
    constructor
    · refine ⟨?_, ?_, ?_, ?_, ?_, ?_⟩ <;> simp [CH34x.speed_khz_index, hs]
    · intro h1 h2 h3 h4 h5 h6
      simp [CH34x.speed_khz_index, hs, h1, h2, h3, h4, h5, h6]
  · intro hl
    constructor
    · refine ⟨?_, ?_, ?_, ?_, ?_, ?_, ?_, ?_⟩ <;> simp [CH34x.speed_khz_index, hl]
    · intro h1 h2 h3 h4 h5 h6 h7 h8
      simp [CH34x.speed_khz_index, hl, h1, h2, h3, h4, h5, h6, h7, h8]

/-- Witness for C1 under Larger pack: 1875 resolves to index 2 and 1000 is unsupported. -/
theorem speed_khz_index_tables_witness :
    largerState.speed_khz_index 1875 = .ok 2 ∧
    largerState.speed_khz_index 1000 = .error (.UnsupportedSpeed 1000) := by
  have h := (speed_khz_index_tables largerState 1000).2 rfl
  exact ⟨h.1.2.2.1,
    h.2 (by decide) (by decide) (by decide) (by decide) (by decide) (by decide) (by decide)
      (by decide)⟩

lemma speed_khz_index_ok_or_unsupported (st : CH34x) (khz : Nat) :
    (∃ i, st.speed_khz_index khz = .ok i) ∨
    st.speed_khz_index khz = .error (.UnsupportedSpeed khz) := by
  cases hst : st.pack with
  | none => right; simp [CH34x.speed_khz_index, hst]
  | some p =>
    cases p
    · simp only [CH34x.speed_khz_index, hst]
      split_ifs <;> first | exact Or.inl ⟨_, rfl⟩ | exact Or.inr rfl
    · simp only [CH34x.speed_khz_index, hst]
      split_ifs <;> first | exact Or.inl ⟨_, rfl⟩ | exact Or.inr rfl

/-- C2: with an unresolved pack mode, or a kHz value absent from the active
table, `set_speed` fails with `UnsupportedSpeed(khz)` and performs zero USB
transfers — the table lookup precedes all I/O. -/
theorem set_speed_miss_no_transfer (st : CH34x) (khz : Nat) (reply : List Nat)
    (h : st.pack = none ∨ ∀ i, st.speed_khz_index khz ≠ .ok i) :
    st.set_speed khz reply =
      { events := [], result := some (.error (.UnsupportedSpeed khz)) } := by
  have herr : st.speed_khz_index khz = .error (.UnsupportedSpeed khz) := by
    rcases h with h | h
    · simp [CH34x.speed_khz_index, h]
    · rcases speed_khz_index_ok_or_unsupported st khz with ⟨i, hi⟩ | he
      · exact absurd hi (h i)
      · exact he
  unfold CH34x.set_speed
  rw [herr]

/-- Witness for C2: unresolved pack mode, `set_speed(1875)` fails without transfers. -/
theorem set_speed_miss_no_transfer_witness :
    nonePackState.set_speed 1875 [] =
      { events := [], result := some (.error (.UnsupportedSpeed 1875)) } :=
  set_speed_miss_no_transfer nonePackState 1875 [] (Or.inl rfl)

/-- C3: on a table hit with index `i`, `set_speed` writes exactly the nine
bytes `D0 06 00 00 i 00 00 00 00`, reads 4 bytes, fails with
`UnsupportedSpeed(khz)` when the reply's last byte is nonzero, and otherwise
returns the requested kHz value unchanged. -/
theorem set_speed_hit (st : CH34x) (khz i : Nat) (reply : List Nat) (v : Nat)
    (hi : st.speed_khz_index khz = .ok i) (hv : reply.getLast? = some v) :
    (st.set_speed khz reply).events =
      [USBEvent.bulkOut st.epout [0xD0, 0x06, 0x00, 0x00, i, 0x00, 0x00, 0x00, 0x00],
       USBEvent.bulkIn st.epin 4] ∧
    (v ≠ 0x00 → (st.set_speed khz reply).result = some (.error (.UnsupportedSpeed khz))) ∧
    (v = 0x00 → (st.set_speed khz reply).result = some (.ok khz)) := by
  have hrun : st.set_speed khz reply =
      if v ≠ 0x00 then
        { events := [USBEvent.bulkOut st.epout [0xD0, 0x06, 0x00, 0x00, i, 0x00, 0x00, 0x00, 0x00],
                     USBEvent.bulkIn st.epin 4],
          result := some (.error (.UnsupportedSpeed khz)) }
      else
        { events := [USBEvent.bulkOut st.epout [0xD0, 0x06, 0x00, 0x00, i, 0x00, 0x00, 0x00, 0x00],
                     USBEvent.bulkIn st.epin 4],
          result := some (.ok khz) } := by
    unfold CH34x.set_speed
    rw [hi, hv]
  by_cases h0 : v = 0x00
  · rw [hrun, if_neg (by simp [h0])]
    exact ⟨rfl, fun hc => absurd h0 hc, fun _ => rfl⟩
  · rw [hrun, if_pos h0]
    exact ⟨rfl, fun _ => rfl, fun hc => absurd hc h0⟩

/-- Witness for C3: Standard pack, 15000 kHz resolves to index 3 and an
all-zero reply accepts the speed. -/
theorem set_speed_hit_witness :
    (stdState.set_speed 15000 [0, 0, 0, 0]).events =
      [USBEvent.bulkOut stdState.epout [0xD0, 0x06, 0x00, 0x00, 3, 0x00, 0x00, 0x00, 0x00],
       USBEvent.bulkIn stdState.epin 4] ∧
    ((0 : Nat) ≠ 0x00 →
      (stdState.set_speed 15000 [0, 0, 0, 0]).result = some (.error (.UnsupportedSpeed 15000))) ∧
    ((0 : Nat) = 0x00 →
      (stdState.set_speed 15000 [0, 0, 0, 0]).result = some (.ok 15000)) :=
  set_speed_hit stdState 15000 3 [0, 0, 0, 0] 0 rfl rfl

/-- C4: the pack-mode handshake of `ch347_jtag_init` writes the fixed command
`D0 06 00 00 09 00 00 00 00`, reads 4 bytes, and sets the pack mode from the
reply's last byte (0x00 gives Standard, anything else Larger); before
initialization — in the state `new_from_selector` produces — the pack mode is
`none`. -/
theorem ch347_jtag_init_handshake (st : CH34x) (initReply speedReply : List Nat) (v : Nat)
    (hv : initReply.getLast? = some v) :
    CH34x.new_from_selector_ok.pack = none ∧
    (st.ch347_jtag_init initReply speedReply).events.take 2 =
      [USBEvent.bulkOut 6 [0xD0, 6, 0, 0, 9, 0x00, 0x00, 0x00, 0x00],
       USBEvent.bulkIn st.epin 4] ∧
    (st.ch347_jtag_init initReply speedReply).state.pack =
      (if v = 0x00 then some PACK.STANDARD_PACK else some PACK.LARGER_PACK) := by
  refine ⟨rfl, ?_, ?_⟩
  · simp [CH34x.ch347_jtag_init]
  · simp [CH34x.ch347_jtag_init, hv]

/-- Witness for C4 with reply `[0,0,0,1]`: the nonzero last byte selects Larger pack. -/
theorem ch347_jtag_init_handshake_witness :
    CH34x.new_from_selector_ok.pack = none ∧
    (CH34x.new_from_selector_ok.ch347_jtag_init [0, 0, 0, 1] [0, 0, 0, 0]).events.take 2 =
      [USBEvent.bulkOut 6 [0xD0, 6, 0, 0, 9, 0x00, 0x00, 0x00, 0x00],
       USBEvent.bulkIn CH34x.new_from_selector_ok.epin 4] ∧
    (CH34x.new_from_selector_ok.ch347_jtag_init [0, 0, 0, 1] [0, 0, 0, 0]).state.pack =
      (if (1 : Nat) = 0x00 then some PACK.STANDARD_PACK else some PACK.LARGER_PACK) :=
  ch347_jtag_init_handshake CH34x.new_from_selector_ok [0, 0, 0, 1] [0, 0, 0, 0] 1 rfl

/-- C8: `send` frames the payload as `0xD2`, the payload length reduced
modulo 255, then `0x00`, followed by the raw payload, writes that frame, and
performs exactly one bulk read requesting a fixed 64-byte buffer. -/
theorem send_frame (st : CH34x) (buf : List Nat) :
    st.send buf =
      [USBEvent.bulkOut st.epout (0xD2 :: buf.length % 255 :: 0x00 :: buf),
       USBEvent.bulkIn st.epin 64] := rfl

lemma set_speed_result_shape (st : CH34x) (khz : Nat) (reply : List Nat) :
    (st.set_speed khz reply).result = some (.ok khz) ∨
    (st.set_speed khz reply).result = some (.error (.UnsupportedSpeed khz)) ∨
    (st.set_speed khz reply).result = none := by
  rcases speed_khz_index_ok_or_unsupported st khz with ⟨i, hi⟩ | he
  · unfold CH34x.set_speed
    rw [hi]
    cases hL : reply.getLast? with
    | none => simp
    | some v =>
      by_cases h0 : v = 0x00
      · simp [h0]
      · simp [h0]
  · unfold CH34x.set_speed
    rw [he]
    simp

/-- C10: after the pack-mode handshake, `ch347_jtag_init` always runs the
transfers of `set_speed(60000)` on the updated state, and survives exactly
when that call returns `Ok(60000)` — any failure is fatal; when the handshake
reply is empty the pack mode stays `none`, so that `set_speed(60000)` fails
with `UnsupportedSpeed(60000)` and the initialization dies.  None of this is
part of the spec's init contract, which describes only the handshake. -/
theorem ch347_jtag_init_speed_set (st : CH34x) (initReply speedReply : List Nat) :
    (st.ch347_jtag_init initReply speedReply).events.drop 2 =
      ((st.ch347_jtag_init initReply speedReply).state.set_speed 60000 speedReply).events ∧
    ((st.ch347_jtag_init initReply speedReply).fatal = false ↔
      ((st.ch347_jtag_init initReply speedReply).state.set_speed 60000 speedReply).result =
        some (.ok 60000)) ∧
    (initReply = [] → st.pack = none →
      (st.ch347_jtag_init initReply speedReply).state.pack = none ∧
      ((st.ch347_jtag_init initReply speedReply).state.set_speed 60000 speedReply).result =
        some (.error (.UnsupportedSpeed 60000)) ∧
      (st.ch347_jtag_init initReply speedReply).fatal = true) := by
  refine ⟨rfl, ?_, ?_⟩
  · have hf : (st.ch347_jtag_init initReply speedReply).fatal =
        fatalOf ((st.ch347_jtag_init initReply speedReply).state.set_speed 60000
          speedReply).result := rfl
    rw [hf]
    rcases set_speed_result_shape ((st.ch347_jtag_init initReply speedReply).state) 60000
        speedReply with h | h | h <;> rw [h] <;> simp [fatalOf]
  · intro hnil hpack
    have hstate : (st.ch347_jtag_init initReply speedReply).state = st := by
      subst hnil
      simp [CH34x.ch347_jtag_init]
    rw [hstate]
    have hres : (st.set_speed 60000 speedReply).result =
        some (.error (.UnsupportedSpeed 60000)) := by
      simp [CH34x.set_speed, CH34x.speed_khz_index, hpack]
    refine ⟨hpack, hres, ?_⟩
    have hf : (st.ch347_jtag_init initReply speedReply).fatal =
        fatalOf ((st.ch347_jtag_init initReply speedReply).state.set_speed 60000
          speedReply).result := rfl
    rw [hf, hstate, hres]
    rfl

/-- Witness for C10: unresolved pack mode and an empty handshake reply leave
the pack mode `none`, make the trailing `set_speed(60000)` fail, and kill init. -/
theorem ch347_jtag_init_speed_set_witness :
    (nonePackState.ch347_jtag_init [] [0, 0, 0, 0]).events.drop 2 =
      ((nonePackState.ch347_jtag_init [] [0, 0, 0, 0]).state.set_speed 60000 [0, 0, 0, 0]).events ∧
    (nonePackState.ch347_jtag_init [] [0, 0, 0, 0]).state.pack = none ∧
    ((nonePackState.ch347_jtag_init [] [0, 0, 0, 0]).state.set_speed 60000 [0, 0, 0, 0]).result =
      some (.error (.UnsupportedSpeed 60000)) ∧
    (nonePackState.ch347_jtag_init [] [0, 0, 0, 0]).fatal = true := by
  have h := ch347_jtag_init_speed_set nonePackState [] [0, 0, 0, 0]
  have h3 := h.2.2 rfl rfl
  exact ⟨h.1, h3.1, h3.2.1, h3.2.2⟩

/-- C9: the bulk transfer races the completion against the deadline — a
deadline win returns `TimedOut`; a completed transfer with a device-reported
failure returns the wrapped I/O error; on success `write_bulk` returns the
byte count the device accepted, and `read_bulk` copies
`min(received, buffer.len())` bytes into the front of the buffer and returns
that count. -/
theorem bulk_transfer_race (endpoint : Nat) (buf bufR : List Nat) (timeout : Nat)
    (compOut : OutCompletion) (compIn : InCompletion) :
    write_bulk endpoint buf timeout .deadline = .error .timedOut ∧
    read_bulk endpoint bufR timeout .deadline = some (.error .timedOut) ∧
    (compOut.status = .fail →
      write_bulk endpoint buf timeout (.completed compOut) = .error .other) ∧
    (compIn.status = .fail →
      read_bulk endpoint bufR timeout (.completed compIn) = some (.error .other)) ∧
    (compOut.status = .ok →
      write_bulk endpoint buf timeout (.completed compOut) = .ok compOut.actual_length) ∧
    (compIn.status = .ok → compIn.data.length ≤ bufR.length →
      read_bulk endpoint bufR timeout (.completed compIn) =
        some (.ok (min compIn.data.length bufR.length,
          compIn.data ++ bufR.drop compIn.data.length))) := by
  refine ⟨rfl, rfl, ?_, ?_, ?_, ?_⟩
  · intro h
    simp [write_bulk, h]
  · intro h
    simp [read_bulk, h]
  · intro h
    simp [write_bulk, h]
  · intro h hle
    rw [Nat.min_eq_left hle]
    simp [read_bulk, h, hle]

/-- Witness for C9: a timed-out write, a successful 1-byte write, and a
successful read of 2 bytes into a 3-byte buffer. -/
theorem bulk_transfer_race_witness :
    write_bulk 6 [1] 500 .deadline = .error .timedOut ∧
    write_bulk 6 [1] 500 (.completed { status := .ok, actual_length := 1 }) = .ok 1 ∧
    read_bulk 134 [0, 0, 0] 500 (.completed { status := .ok, data := [7, 8] }) =
      some (.ok (min 2 3, [7, 8] ++ ([0, 0, 0] : List Nat).drop 2)) := by
  have h := bulk_transfer_race 6 [1] [0, 0, 0] 500
    { status := .ok, actual_length := 1 } { status := .ok, data := [7, 8] }
  exact ⟨h.1, h.2.2.2.2.1 rfl, h.2.2.2.2.2 rfl (by decide)⟩

end Ch34xPlay
